import Mathlib

/-!
Verification of the climate-alerts pipeline (src/main.py).

The program is a linear pipeline: fetch a record list from a climate data
provider, extract two parallel sequences from it, fit a least-squares line,
forecast the next value, and post an alert.  Every stage traps its own
errors and returns a null sentinel; the orchestrator short-circuits on the
first sentinel.  The embedding below mirrors the source functions over exact
rational arithmetic, with the behaviour of the two outbound HTTP requests
supplied as an explicit environment value.
-/

namespace ClimateAlerts

/-- One record of the provider response.  Each JSON object may lack a field;
an absent field is `none` (reading it in Python raises a KeyError, which the
source traps). -/
structure Entry where
  date : Option String
  risk_factor : Option ℚ
  deriving DecidableEq

/-- The fitted linear model: slope and intercept of the least-squares line,
as held by the fitted LinearRegression object. -/
structure LinModel where
  slope : ℚ
  intercept : ℚ
  deriving DecidableEq

/-- Outcome of the provider request made inside `fetch_climate_data`:
either some exception was raised in the try block (transport error, an error
HTTP status surfaced by raise_for_status, or a malformed body) carrying the
diagnostic line the handler prints, or the request produced a parsed record
list. -/
inductive FetchInteraction where
  | raised (diag : String)
  | ok (data : List Entry)
  deriving DecidableEq

/-- `fetch_climate_data` (src/main.py lines 22-33): returns the parsed data
on success; any exception in the try block is trapped, a diagnostic is
printed, and `None` is returned.  Single attempt, no retry. -/
def fetch_climate_data (i : FetchInteraction) : Option (List Entry) :=
  match i with
  | FetchInteraction.raised _ => none
  | FetchInteraction.ok data => some data

/-- The field-extraction loop of `process_data` (src/main.py lines 40-44):
walks the records in order appending the date field and then the
risk_factor field of each; the first missing key raises a KeyError carrying
that key, which aborts the loop. -/
def extractFields : List Entry → Except String (List String × List ℚ)
  | [] => Except.ok ([], [])
  | e :: es =>
    match e.date with
    | none => Except.error "date"
    | some d =>
      match e.risk_factor with
      | none => Except.error "risk_factor"
      | some r =>
        match extractFields es with
        | Except.error k => Except.error k
        | Except.ok (ds, rs) => Except.ok (d :: ds, r :: rs)

/-- `process_data` (src/main.py lines 35-50): on success returns the pair of
arrays `(dates, risk_factors)`; on a KeyError (or any other error) prints a
diagnostic and returns the `(None, None)` sentinel. -/
def process_data (raw : List Entry) : Option (List String) × Option (List ℚ) :=
  match extractFields raw with
  | Except.ok (ds, rs) => (some ds, some rs)
  | Except.error _ => (none, none)

/-- Closed-form ordinary least squares of `y` on `x`, the computation
performed by LinearRegression.fit.  Over ℚ a zero denominator makes the
slope 0, which agrees with the minimum-norm solution the library produces
for a degenerate single-point design. -/
def olsFit (x y : List ℚ) : LinModel :=
  let n : ℚ := x.length
  let sx := x.sum
  let sy := y.sum
  let sxx := (x.map (fun v => v * v)).sum
  let sxy := ((x.zip y).map (fun p => p.1 * p.2)).sum
  let slope := (n * sxy - sx * sy) / (n * sxx - sx * sx)
  { slope := slope, intercept := (sy - slope * sx) / n }

/-- `train_model` (src/main.py lines 52-64): builds the design
`X = arange(len(dates))` and fits `risk_factors` on it.  The fit raises
(trapped, returning `None`) when the sample is empty or the two lengths
disagree; otherwise it succeeds with the least-squares line. -/
def train_model (dates : List String) (risk_factors : List ℚ) : Option LinModel :=
  if dates.length = 0 ∨ risk_factors.length ≠ dates.length then none
  else some (olsFit ((List.range dates.length).map (fun i => (i : ℚ))) risk_factors)

/-- `model.predict` of the fitted line at a single position. -/
def predict (m : LinModel) (x : ℚ) : ℚ := m.slope * x + m.intercept

/-- The alert message built by `send_notification` (src/main.py line 69). -/
def notificationMessage (loc : String) (forecast : ℚ) : String :=
  "Climate alert for " ++ loc ++ ": Forecasted risk is " ++ toString forecast

/-- `send_notification` (src/main.py lines 66-76): posts the alert message;
both handlers trap their exception and print a line, so the function always
returns normally whatever the request does.  `notifyOk` is whether the POST
succeeded with a 2xx status; the result is the line the function prints. -/
def send_notification (notifyOk : Bool) (loc : String) (forecast : ℚ) : String :=
  if notifyOk then "Notification sent successfully!"
  else "HTTP error during notification: " ++ notificationMessage loc forecast

/-- The observable stage calls of one run, in order. -/
inductive Event where
  | fetchCall
  | processCall
  | trainCall
  | notifyCall (forecast : ℚ)
  deriving DecidableEq

/-- The environment of one run: how the provider request behaves and whether
the notification POST succeeds. -/
structure Env where
  fetch : FetchInteraction
  notifyOk : Bool
  deriving DecidableEq

/-- What one run of `main` produces: the stage calls made, the lines
printed, and the process exit status. -/
structure RunResult where
  trace : List Event
  log : List String
  exitCode : Nat
  deriving DecidableEq

/-- The hardcoded location of `main` (src/main.py line 79). -/
def location : String := "New York"

/-- `main` (src/main.py lines 78-104): the null-checked short-circuit chain
Fetch, Process, Train, Predict, Notify.  The truthiness test on the fetched
data makes both `None` and the empty list abort with the fetch-failure
message.  The script never raises past a stage and never calls sys.exit, so
the interpreter exits with status 0 on every path. -/
def main (env : Env) : RunResult :=
  let raw := fetch_climate_data env.fetch
  let fetchDiag : List String :=
    match env.fetch with
    | FetchInteraction.raised diag => [diag]
    | FetchInteraction.ok _ => []
  let preLog := ["Fetching climate data for " ++ location ++ "..."] ++ fetchDiag
  match raw with
  | none =>
    { trace := [Event.fetchCall]
      log := preLog ++ ["Failed to fetch climate data."]
      exitCode := 0 }
  | some data =>
    if data.isEmpty then
      { trace := [Event.fetchCall]
        log := preLog ++ ["Failed to fetch climate data."]
        exitCode := 0 }
    else
      let procLog := preLog ++ ["Processing data..."]
      match process_data data with
      | (some ds, some rs) =>
        let trainLog := procLog ++ ["Training model..."]
        match train_model ds rs with
        | some m =>
          let forecast := predict m (ds.length : ℚ)
          { trace := [Event.fetchCall, Event.processCall, Event.trainCall,
                      Event.notifyCall forecast]
            log := trainLog ++
              ["Forecasted risk for next date: " ++ toString forecast,
               "Sending notification...",
               send_notification env.notifyOk location forecast]
            exitCode := 0 }
        | none =>
          { trace := [Event.fetchCall, Event.processCall, Event.trainCall]
            log := trainLog ++ ["Model training failed."]
            exitCode := 0 }
      | (_, _) =>
        let missLog : List String :=
          match extractFields data with
          | Except.error k => ["Missing expected data field: " ++ k]
          | Except.ok _ => []
        { trace := [Event.fetchCall, Event.processCall]
          log := procLog ++ missLog ++ ["Data processing failed."]
          exitCode := 0 }

/-- The provider response of the specification's happy-path property. -/
def sampleRecords : List Entry :=
  [{ date := some "2024-01-01", risk_factor := some 1 },
   { date := some "2024-01-02", risk_factor := some 2 },
   { date := some "2024-01-03", risk_factor := some 3 }]

/-- A predicate picking out the notification events of a trace. -/
def isNotifyCall : Event → Bool
  | Event.notifyCall _ => true
  | _ => false

/-! ### Helper lemmas about the field-extraction loop -/

lemma extractFields_ok_maps {es : List Entry} {ds : List String} {rs : List ℚ}
    (h : extractFields es = Except.ok (ds, rs)) :
    es.map Entry.date = ds.map some ∧ es.map Entry.risk_factor = rs.map some := by
  induction es generalizing ds rs with
  | nil =>
    simp only [extractFields, Except.ok.injEq, Prod.mk.injEq] at h
    obtain ⟨h1, h2⟩ := h
    subst h1; subst h2
    simp
  | cons e es ih =>
    simp only [extractFields] at h
    cases hd : e.date with
    | none => rw [hd] at h; cases h
    | some d =>
      rw [hd] at h
      cases hr : e.risk_factor with
      | none => rw [hr] at h; cases h
      | some r =>
        rw [hr] at h
        cases hrec : extractFields es with
        | error k => rw [hrec] at h; cases h
        | ok p =>
          obtain ⟨ds', rs'⟩ := p
          rw [hrec] at h
          injection h with h
          injection h with h1 h2
          subst h1; subst h2
          obtain ⟨ih1, ih2⟩ := ih hrec
          simp [hd, hr, ih1, ih2]

lemma extractFields_ok_of_fields {es : List Entry}
    (h : ∀ e ∈ es, e.date.isSome ∧ e.risk_factor.isSome) :
    ∃ ds rs, extractFields es = Except.ok (ds, rs) := by
  induction es with
  | nil => exact ⟨[], [], rfl⟩
  | cons e es ih =>
    obtain ⟨hd, hr⟩ := h e (List.mem_cons_self e es)
    obtain ⟨d, hd⟩ := Option.isSome_iff_exists.mp hd
    obtain ⟨r, hr⟩ := Option.isSome_iff_exists.mp hr
    obtain ⟨ds, rs, hrec⟩ := ih (fun e he => h e (List.mem_cons_of_mem _ he))
    exact ⟨d :: ds, r :: rs, by simp [extractFields, hd, hr, hrec]⟩

lemma extractFields_error_of_missing {es : List Entry} {e : Entry}
    (he : e ∈ es) (hr : e.risk_factor = none) :
    ∃ k, extractFields es = Except.error k := by
  induction es with
  | nil => cases he
  | cons a es ih =>
    cases List.mem_cons.mp he with
    | inl h =>
      subst h
      cases hd : e.date with
      | none => exact ⟨"date", by simp [extractFields, hd]⟩
      | some d => exact ⟨"risk_factor", by simp [extractFields, hd, hr]⟩
    | inr h =>
      obtain ⟨k, hk⟩ := ih h
      cases hd : a.date with
      | none => exact ⟨"date", by simp [extractFields, hd]⟩
      | some d =>
        cases har : a.risk_factor with
        | none => exact ⟨"risk_factor", by simp [extractFields, hd, har]⟩
        | some r => exact ⟨k, by simp [extractFields, hd, har, hk]⟩

lemma extractFields_ok_lengths {es : List Entry} {ds : List String} {rs : List ℚ}
    (h : extractFields es = Except.ok (ds, rs)) :
    ds.length = es.length ∧ rs.length = es.length := by
  obtain ⟨h1, h2⟩ := extractFields_ok_maps h
  constructor
  · have := congrArg List.length h1
    simpa using this.symm
  · have := congrArg List.length h2
    simpa using this.symm

lemma process_data_ok {raw : List Entry} {ds : List String} {rs : List ℚ}
    (hp : process_data raw = (some ds, some rs)) :
    extractFields raw = Except.ok (ds, rs) := by
  unfold process_data at hp
  cases h : extractFields raw with
  | error k =>
    rw [h] at hp
    simp at hp
  | ok p =>
    obtain ⟨ds', rs'⟩ := p
    rw [h] at hp
    simp only [Prod.mk.injEq, Option.some.injEq] at hp
    obtain ⟨h1, h2⟩ := hp
    subst h1; subst h2
    rfl

lemma process_data_fail {raw : List Entry} {k : String}
    (h : extractFields raw = Except.error k) :
    process_data raw = (none, none) := by
  simp [process_data, h]

/-- With every date present on both sides, equal risk_factor columns force
the extraction to fail on both lists or to succeed with the same risk list
and date lists of the same length. -/
lemma extractFields_congr (es1 : List Entry) : ∀ (es2 : List Entry),
    (∀ e ∈ es1, e.date.isSome) → (∀ e ∈ es2, e.date.isSome) →
    es1.map Entry.risk_factor = es2.map Entry.risk_factor →
    (∃ k1 k2, extractFields es1 = Except.error k1 ∧
      extractFields es2 = Except.error k2) ∨
    (∃ ds1 ds2 rs, ds1.length = ds2.length ∧
      extractFields es1 = Except.ok (ds1, rs) ∧
      extractFields es2 = Except.ok (ds2, rs)) := by
  induction es1 with
  | nil =>
    intro es2 _ _ hmap
    cases es2 with
    | nil => right; exact ⟨[], [], [], rfl, rfl, rfl⟩
    | cons e2 es2 => simp at hmap
  | cons e1 es1 ih =>
    intro es2 h1 h2 hmap
    cases es2 with
    | nil => simp at hmap
    | cons e2 es2 =>
      simp only [List.map_cons, List.cons.injEq] at hmap
      obtain ⟨hre, hmap⟩ := hmap
      obtain ⟨d1, hd1⟩ := Option.isSome_iff_exists.mp (h1 e1 (List.mem_cons_self e1 es1))
      obtain ⟨d2, hd2⟩ := Option.isSome_iff_exists.mp (h2 e2 (List.mem_cons_self e2 es2))
      cases hr1 : e1.risk_factor with
      | none =>
        have hr2 : e2.risk_factor = none := by rw [← hre, hr1]
        left
        exact ⟨"risk_factor", "risk_factor",
          by simp [extractFields, hd1, hr1], by simp [extractFields, hd2, hr2]⟩
      | some r =>
        have hr2 : e2.risk_factor = some r := by rw [← hre, hr1]
        rcases ih es2 (fun e he => h1 e (List.mem_cons_of_mem _ he))
            (fun e he => h2 e (List.mem_cons_of_mem _ he)) hmap with
          ⟨k1, k2, hk1, hk2⟩ | ⟨ds1, ds2, rs, hlen, hok1, hok2⟩
        · left
          exact ⟨k1, k2, by simp [extractFields, hd1, hr1, hk1],
            by simp [extractFields, hd2, hr2, hk2]⟩
        · right
          exact ⟨d1 :: ds1, d2 :: ds2, r :: rs, by simp [hlen],
            by simp [extractFields, hd1, hr1, hok1],
            by simp [extractFields, hd2, hr2, hok2]⟩

/-! ### Helper lemmas about training and the orchestrator -/

lemma train_model_congr {d1 d2 : List String} (rs : List ℚ)
    (h : d1.length = d2.length) : train_model d1 rs = train_model d2 rs := by
  simp [train_model, h]

lemma train_model_some_cond {ds : List String} {rs : List ℚ} {m : LinModel}
    (h : train_model ds rs = some m) :
    ds.length ≠ 0 ∧ rs.length = ds.length := by
  unfold train_model at h
  split at h
  · cases h
  · rename_i hcond
    push_neg at hcond
    exact hcond

lemma train_model_of_cond {ds : List String} {rs : List ℚ}
    (h1 : ds.length ≠ 0) (h2 : rs.length = ds.length) :
    train_model ds rs =
      some (olsFit ((List.range ds.length).map (fun i => (i : ℚ))) rs) := by
  unfold train_model
  rw [if_neg]
  push_neg
  exact ⟨h1, h2⟩

lemma main_ok_forecast (b : Bool) {data : List Entry} {ds : List String}
    {rs : List ℚ} {m : LinModel}
    (hp : process_data data = (some ds, some rs))
    (ht : train_model ds rs = some m) :
    main ⟨FetchInteraction.ok data, b⟩ =
      { trace := [Event.fetchCall, Event.processCall, Event.trainCall,
                  Event.notifyCall (predict m (ds.length : ℚ))]
        log := ["Fetching climate data for " ++ location ++ "...",
                "Processing data...", "Training model...",
                "Forecasted risk for next date: " ++
                  toString (predict m (ds.length : ℚ)),
                "Sending notification...",
                send_notification b location (predict m (ds.length : ℚ))]
        exitCode := 0 } := by
  have hds := process_data_ok hp
  obtain ⟨hl1, hl2⟩ := extractFields_ok_lengths hds
  obtain ⟨hne, _⟩ := train_model_some_cond ht
  have hemp : data.isEmpty = false := by
    cases data with
    | nil => simp at hl1; subst hl1; simp at hne
    | cons a l => rfl
  simp [main, fetch_climate_data, hemp, hp, ht]

lemma main_ok_procfail (b : Bool) {data : List Entry} {k : String}
    (hne : data ≠ [])
    (hk : extractFields data = Except.error k) :
    main ⟨FetchInteraction.ok data, b⟩ =
      { trace := [Event.fetchCall, Event.processCall]
        log := ["Fetching climate data for " ++ location ++ "...",
                "Processing data...",
                "Missing expected data field: " ++ k,
                "Data processing failed."]
        exitCode := 0 } := by
  have hemp : data.isEmpty = false := by
    cases data with
    | nil => exact absurd rfl hne
    | cons a l => rfl
  simp [main, fetch_climate_data, hemp, process_data_fail hk, hk]

lemma main_raised (b : Bool) (diag : String) :
    main ⟨FetchInteraction.raised diag, b⟩ =
      { trace := [Event.fetchCall]
        log := ["Fetching climate data for " ++ location ++ "...", diag,
                "Failed to fetch climate data."]
        exitCode := 0 } := by
  simp [main, fetch_climate_data]

lemma main_empty (b : Bool) :
    main ⟨FetchInteraction.ok [], b⟩ =
      { trace := [Event.fetchCall]
        log := ["Fetching climate data for " ++ location ++ "...",
                "Failed to fetch climate data."]
        exitCode := 0 } := by
  simp [main, fetch_climate_data]

/-- The exact linear fit of the happy-path data, shared by several proofs. -/
lemma sample_fit :
    train_model ["2024-01-01", "2024-01-02", "2024-01-03"] [1, 2, 3] =
      some { slope := 1, intercept := 1 } := by
  norm_num [train_model, olsFit, List.range, List.range.loop]

/-- C1: for the provider response with risk factors 1, 2, 3 on three dates,
the least-squares fit over positions 0, 1, 2 yields slope 1 and intercept 1,
and the pipeline forecast, predict at position 3, equals 4. -/
theorem happyPathForecast :
    train_model ["2024-01-01", "2024-01-02", "2024-01-03"] [1, 2, 3] =
      some { slope := 1, intercept := 1 } ∧
    predict { slope := 1, intercept := 1 } 3 = 4 ∧
    (main ⟨FetchInteraction.ok sampleRecords, true⟩).trace =
      [Event.fetchCall, Event.processCall, Event.trainCall,
       Event.notifyCall 4] := by
  refine ⟨sample_fit, by norm_num [predict], ?_⟩
  have hp : process_data sampleRecords =
      (some ["2024-01-01", "2024-01-02", "2024-01-03"], some [1, 2, 3]) := rfl
  rw [main_ok_forecast true hp sample_fit]
  norm_num [predict]

/-- C2 counterexample: on an all-fields-present input the first component
returned by `process_data` is the list of original date strings, which is not
the 0-based position index. -/
theorem processorReturnsDates_cex :
    (process_data [{ date := some "2024-01-01", risk_factor := some 1 },
                   { date := some "2024-01-02", risk_factor := some 2 }]).1 =
      some ["2024-01-01", "2024-01-02"] ∧
    ["2024-01-01", "2024-01-02"] ≠ ["0", "1"] :=
  ⟨rfl, by decide⟩

/-- C2 amended: on success `process_data` returns the original date values
as the first sequence and the numeric risk_factor values as the second; the
0-based position index is synthesized later, inside `train_model`. -/
theorem processorReturnsDatesAndRisks (entries : List Entry)
    (h : ∀ e ∈ entries, e.date.isSome ∧ e.risk_factor.isSome) :
    process_data entries =
      (some (entries.map (fun e => e.date.getD "")),
       some (entries.map (fun e => e.risk_factor.getD 0))) := by
  obtain ⟨ds, rs, hok⟩ :=
    extractFields_ok_of_fields h
  obtain ⟨h1, h2⟩ := extractFields_ok_maps hok
  have hds : entries.map (fun e => e.date.getD "") = ds := by
    rw [show (fun e : Entry => e.date.getD "") =
        (fun o : Option String => o.getD "") ∘ Entry.date from rfl,
      ← List.map_map, h1, List.map_map]
    simp [Function.comp_def]
  have hrs : entries.map (fun e => e.risk_factor.getD 0) = rs := by
    rw [show (fun e : Entry => e.risk_factor.getD 0) =
        (fun o : Option ℚ => o.getD 0) ∘ Entry.risk_factor from rfl,
      ← List.map_map, h2, List.map_map]
    simp [Function.comp_def]
  rw [hds, hrs]
  simp [process_data, hok]

/-- Witness for the amended C2 on the happy-path records. -/
theorem processorReturnsDatesAndRisks_witness :
    process_data sampleRecords =
      (some ["2024-01-01", "2024-01-02", "2024-01-03"], some [1, 2, 3]) := by
  have h := processorReturnsDatesAndRisks sampleRecords (by simp [sampleRecords])
  simpa [sampleRecords] using h

/-- C3: a record lacking the risk_factor field makes `process_data` return
the `(None, None)` sentinel, and the orchestrator stops after the processing
stage: no training call and no notification call appear in the trace. -/
theorem missingFieldAbortsBeforeTraining (env : Env) (data : List Entry)
    (e : Entry) (hf : env.fetch = FetchInteraction.ok data)
    (he : e ∈ data) (hr : e.risk_factor = none) :
    process_data data = (none, none) ∧
    (main env).trace = [Event.fetchCall, Event.processCall] ∧
    Event.trainCall ∉ (main env).trace ∧
    (main env).trace.filter isNotifyCall = [] := by
  obtain ⟨k, hk⟩ := extractFields_error_of_missing he hr
  have hne : data ≠ [] := by
    intro hnil
    subst hnil
    cases he
  obtain ⟨f, b⟩ := env
  dsimp only at hf
  subst hf
  rw [main_ok_procfail b hne hk]
  exact ⟨process_data_fail hk, rfl, by simp, rfl⟩

/-- Witness for C3 on a one-record response missing risk_factor. -/
theorem missingFieldAbortsBeforeTraining_witness :
    process_data [{ date := some "2024-01-01", risk_factor := none }] =
      (none, none) ∧
    (main ⟨FetchInteraction.ok
        [{ date := some "2024-01-01", risk_factor := none }], true⟩).trace =
      [Event.fetchCall, Event.processCall] ∧
    Event.trainCall ∉
      (main ⟨FetchInteraction.ok
        [{ date := some "2024-01-01", risk_factor := none }], true⟩).trace ∧
    (main ⟨FetchInteraction.ok
        [{ date := some "2024-01-01", risk_factor := none }], true⟩).trace.filter
      isNotifyCall = [] :=
  missingFieldAbortsBeforeTraining
    ⟨FetchInteraction.ok [{ date := some "2024-01-01", risk_factor := none }], true⟩
    [{ date := some "2024-01-01", risk_factor := none }]
    { date := some "2024-01-01", risk_factor := none }
    rfl (List.mem_singleton.mpr rfl) rfl

/-- C4: when the provider request raises, `fetch_climate_data` returns the
`None` sentinel after its single attempt and the orchestrator aborts: the
trace is one fetch call and nothing else. -/
theorem fetchFailureAbortsPipeline (env : Env) (diag : String)
    (hf : env.fetch = FetchInteraction.raised diag) :
    fetch_climate_data env.fetch = none ∧
    (main env).trace = [Event.fetchCall] ∧
    (main env).trace.count Event.fetchCall = 1 ∧
    Event.processCall ∉ (main env).trace ∧
    Event.trainCall ∉ (main env).trace ∧
    (main env).trace.filter isNotifyCall = [] := by
  obtain ⟨f, b⟩ := env
  dsimp only at hf
  subst hf
  rw [main_raised b diag]
  exact ⟨rfl, rfl, rfl, by simp, by simp, rfl⟩

/-- Witness for C4 on a concrete transport failure. -/
theorem fetchFailureAbortsPipeline_witness :
    fetch_climate_data
      (Env.mk (FetchInteraction.raised "Other error occurred: timeout") true).fetch =
      none ∧
    (main ⟨FetchInteraction.raised "Other error occurred: timeout", true⟩).trace =
      [Event.fetchCall] ∧
    (main ⟨FetchInteraction.raised "Other error occurred: timeout", true⟩).trace.count
      Event.fetchCall = 1 ∧
    Event.processCall ∉
      (main ⟨FetchInteraction.raised "Other error occurred: timeout", true⟩).trace ∧
    Event.trainCall ∉
      (main ⟨FetchInteraction.raised "Other error occurred: timeout", true⟩).trace ∧
    (main ⟨FetchInteraction.raised "Other error occurred: timeout", true⟩).trace.filter
      isNotifyCall = [] :=
  fetchFailureAbortsPipeline
    ⟨FetchInteraction.raised "Other error occurred: timeout", true⟩
    "Other error occurred: timeout" rfl

/-- C5: a run that reaches the notification stage with a fitted forecast and
whose POST fails still completes: `send_notification` traps the error and
returns, the failure line is logged, and the process exits with status 0. -/
theorem notifyFailureNonfatal (env : Env) (data : List Entry)
    (ds : List String) (rs : List ℚ) (m : LinModel)
    (hf : env.fetch = FetchInteraction.ok data)
    (hp : process_data data = (some ds, some rs))
    (ht : train_model ds rs = some m)
    (hn : env.notifyOk = false) :
    (main env).exitCode = 0 ∧
    Event.notifyCall (predict m (ds.length : ℚ)) ∈ (main env).trace ∧
    ("HTTP error during notification: " ++
      notificationMessage location (predict m (ds.length : ℚ))) ∈
      (main env).log := by
  obtain ⟨f, b⟩ := env
  dsimp only at hf hn
  subst hf
  subst hn
  rw [main_ok_forecast false hp ht]
  exact ⟨rfl, by simp, by simp [send_notification]⟩

/-- Witness for C5 on the happy-path data with a failing notification POST. -/
theorem notifyFailureNonfatal_witness :
    (main ⟨FetchInteraction.ok sampleRecords, false⟩).exitCode = 0 ∧
    Event.notifyCall 4 ∈ (main ⟨FetchInteraction.ok sampleRecords, false⟩).trace ∧
    ("HTTP error during notification: " ++ notificationMessage location 4) ∈
      (main ⟨FetchInteraction.ok sampleRecords, false⟩).log := by
  have h := notifyFailureNonfatal ⟨FetchInteraction.ok sampleRecords, false⟩
    sampleRecords ["2024-01-01", "2024-01-02", "2024-01-03"] [1, 2, 3]
    { slope := 1, intercept := 1 } rfl rfl sample_fit rfl
  have h4 : predict { slope := 1, intercept := 1 }
      ((["2024-01-01", "2024-01-02", "2024-01-03"].length : ℕ) : ℚ) = 4 := by
    norm_num [predict]
  rw [h4] at h
  exact h

/-- C6: the fitted model and the run's observable behaviour depend only on
the risk_factor column and the record count, never on the date contents:
equal-length date lists give identical `train_model` results, and two fetched
record lists with identical risk columns and arbitrary dates give identical
stage traces, hence the same forecast. -/
theorem modelIgnoresDateContents :
    (∀ (d1 d2 : List String) (rs : List ℚ), d1.length = d2.length →
      train_model d1 rs = train_model d2 rs) ∧
    (∀ (data1 data2 : List Entry) (b1 b2 : Bool),
      (∀ e ∈ data1, e.date.isSome) → (∀ e ∈ data2, e.date.isSome) →
      data1.map Entry.risk_factor = data2.map Entry.risk_factor →
      (main ⟨FetchInteraction.ok data1, b1⟩).trace =
        (main ⟨FetchInteraction.ok data2, b2⟩).trace) := by
  constructor
  · exact fun d1 d2 rs h => train_model_congr rs h
  · intro data1 data2 b1 b2 h1 h2 hmap
    rcases extractFields_congr data1 data2 h1 h2 hmap with
      ⟨k1, k2, hk1, hk2⟩ | ⟨ds1, ds2, rs, hlds, hok1, hok2⟩
    · have hne1 : data1 ≠ [] := by
        intro hnil
        subst hnil
        cases hk1
      have hne2 : data2 ≠ [] := by
        intro hnil
        subst hnil
        cases hk2
      rw [main_ok_procfail b1 hne1 hk1, main_ok_procfail b2 hne2 hk2]
    · cases data1 with
      | nil =>
        have h0 : data2 = [] := by
          have := congrArg List.length hmap
          simp only [List.map_nil, List.length_nil, List.length_map] at this
          exact List.length_eq_zero.mp this.symm
        subst h0
        rw [main_empty b1, main_empty b2]
      | cons a l =>
        obtain ⟨hl1, hl2⟩ := extractFields_ok_lengths hok1
        have hd1 : ds1.length ≠ 0 := by
          rw [hl1]
          simp
        have ht1 := train_model_of_cond hd1 (hl2.trans hl1.symm)
        have ht2 := (train_model_congr rs hlds).symm.trans ht1
        have hp1 : process_data (a :: l) = (some ds1, some rs) := by
          simp [process_data, hok1]
        have hp2 : process_data data2 = (some ds2, some rs) := by
          simp [process_data, hok2]
        rw [main_ok_forecast b1 hp1 ht1, main_ok_forecast b2 hp2 ht2, hlds]

/-- Witness for C6: the same risk column under two unrelated date labels
gives the same fit and the same run trace. -/
theorem modelIgnoresDateContents_witness :
    train_model ["2024-01-01"] [5] = train_model ["1999-12-31"] [5] ∧
    (main ⟨FetchInteraction.ok
        [{ date := some "2024-01-01", risk_factor := some 1 }], true⟩).trace =
      (main ⟨FetchInteraction.ok
        [{ date := some "mislabeled", risk_factor := some 1 }], false⟩).trace :=
  ⟨modelIgnoresDateContents.1 ["2024-01-01"] ["1999-12-31"] [5] rfl,
   modelIgnoresDateContents.2
     [{ date := some "2024-01-01", risk_factor := some 1 }]
     [{ date := some "mislabeled", risk_factor := some 1 }] true false
     (by simp) (by simp) rfl⟩

/-- C7: every run that reaches the forecast step queries the fitted model at
position n, the length of the observed series, and hands exactly that value
to the notifier. -/
theorem forecastQueriedAtSeriesLength (env : Env) (data : List Entry)
    (ds : List String) (rs : List ℚ) (m : LinModel)
    (hf : env.fetch = FetchInteraction.ok data)
    (hp : process_data data = (some ds, some rs))
    (ht : train_model ds rs = some m) :
    rs.length = data.length ∧
    (main env).trace =
      [Event.fetchCall, Event.processCall, Event.trainCall,
       Event.notifyCall (predict m (rs.length : ℚ))] := by
  obtain ⟨f, b⟩ := env
  dsimp only at hf
  subst hf
  obtain ⟨hl1, hl2⟩ := extractFields_ok_lengths (process_data_ok hp)
  refine ⟨hl2, ?_⟩
  rw [main_ok_forecast b hp ht, hl1.trans hl2.symm]

/-- Witness for C7 on the happy-path run. -/
theorem forecastQueriedAtSeriesLength_witness :
    ([1, 2, 3] : List ℚ).length = sampleRecords.length ∧
    (main ⟨FetchInteraction.ok sampleRecords, true⟩).trace =
      [Event.fetchCall, Event.processCall, Event.trainCall,
       Event.notifyCall (predict { slope := 1, intercept := 1 }
         ((([1, 2, 3] : List ℚ).length : ℕ) : ℚ))] :=
  forecastQueriedAtSeriesLength ⟨FetchInteraction.ok sampleRecords, true⟩
    sampleRecords ["2024-01-01", "2024-01-02", "2024-01-03"] [1, 2, 3]
    { slope := 1, intercept := 1 } rfl rfl sample_fit

/-- C8: fitting is deterministic, so two fits of the same input agree on
slope, intercept, and therefore on the whole prediction function. -/
theorem fitDeterministic (ds : List String) (rs : List ℚ) (m1 m2 : LinModel)
    (h1 : train_model ds rs = some m1) (h2 : train_model ds rs = some m2) :
    m1.slope = m2.slope ∧ m1.intercept = m2.intercept ∧
    predict m1 = predict m2 := by
  have h := h1.symm.trans h2
  injection h with h
  subst h
  exact ⟨rfl, rfl, rfl⟩

/-- The exact linear fit of a two-point input, for the C8 witness. -/
lemma pair_fit :
    train_model ["2024-01-01", "2024-01-02"] [1, 2] =
      some { slope := 1, intercept := 1 } := by
  norm_num [train_model, olsFit, List.range, List.range.loop]

/-- Witness for C8 on a two-point input fitted twice. -/
theorem fitDeterministic_witness :
    ({ slope := 1, intercept := 1 } : LinModel).slope =
      ({ slope := 1, intercept := 1 } : LinModel).slope ∧
    ({ slope := 1, intercept := 1 } : LinModel).intercept =
      ({ slope := 1, intercept := 1 } : LinModel).intercept ∧
    predict { slope := 1, intercept := 1 } =
      predict { slope := 1, intercept := 1 } :=
  fitDeterministic ["2024-01-01", "2024-01-02"] [1, 2]
    { slope := 1, intercept := 1 } { slope := 1, intercept := 1 }
    pair_fit pair_fit

/-- C9: `process_data` returns either the double sentinel `(None, None)` or
two present sequences of equal length; a mixed result is impossible. -/
theorem processDataShapeInvariant (raw : List Entry) :
    process_data raw = (none, none) ∨
    ∃ ds rs, process_data raw = (some ds, some rs) ∧ ds.length = rs.length := by
  cases h : extractFields raw with
  | error k => exact Or.inl (process_data_fail h)
  | ok p =>
    obtain ⟨ds, rs⟩ := p
    obtain ⟨l1, l2⟩ := extractFields_ok_lengths h
    exact Or.inr ⟨ds, rs, by simp [process_data, h], l1.trans l2.symm⟩

/-- C10: a successful fetch of an empty record list fails the truthiness
check in `main`: the run prints the fetch-failure diagnostic and stops after
the fetch call, although `fetch_climate_data` returned a non-None value. -/
theorem emptyResponseTreatedAsFetchFailure (env : Env)
    (hf : env.fetch = FetchInteraction.ok []) :
    fetch_climate_data env.fetch = some [] ∧
    (main env).trace = [Event.fetchCall] ∧
    "Failed to fetch climate data." ∈ (main env).log ∧
    Event.processCall ∉ (main env).trace ∧
    Event.trainCall ∉ (main env).trace ∧
    (main env).trace.filter isNotifyCall = [] := by
  obtain ⟨f, b⟩ := env
  dsimp only at hf
  subst hf
  rw [main_empty b]
  exact ⟨rfl, rfl, by simp, by decide, by decide, rfl⟩

/-- Witness for C10 on the concrete empty response. -/
theorem emptyResponseTreatedAsFetchFailure_witness :
    fetch_climate_data (Env.mk (FetchInteraction.ok []) true).fetch = some [] ∧
    (main ⟨FetchInteraction.ok [], true⟩).trace = [Event.fetchCall] ∧
    "Failed to fetch climate data." ∈ (main ⟨FetchInteraction.ok [], true⟩).log ∧
    Event.processCall ∉ (main ⟨FetchInteraction.ok [], true⟩).trace ∧
    Event.trainCall ∉ (main ⟨FetchInteraction.ok [], true⟩).trace ∧
    (main ⟨FetchInteraction.ok [], true⟩).trace.filter isNotifyCall = [] :=
  emptyResponseTreatedAsFetchFailure ⟨FetchInteraction.ok [], true⟩ rfl

end ClimateAlerts
